import Mathlib

/-!
Shallow embedding of the video-generation orchestrator in
`src/services/geminiService.ts`: the pure submission builder
(`performGeneration` lines 29-131), the remote job cycle (lines 133-169),
and the story-sequence loop of `generateVideo` (lines 172-224).

Remote I/O is modelled by a finite script of remote responses; optional
JavaScript values are `Option`, JS string truthiness is explicit
(`strTruthy`), and the fixed 10-second poll interval is tracked as an
explicit millisecond clock on the event trace.
-/

namespace StoryMode

/-- The five generation modes of `GenerationMode` (types module, values as
used throughout the repository). -/
inductive GenerationMode
  | TEXT_TO_VIDEO
  | FRAMES_TO_VIDEO
  | REFERENCES_TO_VIDEO
  | EXTEND_VIDEO
  | STORY_MODE
deriving DecidableEq

/-- An encoded image input: `{file, base64, description?}` where only
`file.type` (MIME) and `file.name` of the `File` are consulted by the
service. -/
structure ImageFile where
  base64 : String
  fileType : String
  fileName : String
  description : Option String := none
deriving DecidableEq

/-- The opaque remote video handle (`Video` of the remote SDK); the service
reads only its `uri`. -/
structure Video where
  uri : Option String := none
deriving DecidableEq

/-- `GenerateVideoParams`: the generation request, fields as consumed by
`geminiService.ts` and produced by `PromptForm.tsx`. Absent optional
arrays behave exactly like empty ones in the service, so
`referenceImages` is a plain list. -/
structure GenerateVideoParams where
  mode : GenerationMode
  prompt : Option String := none
  storyPrompts : Option (List String) := none
  model : String
  aspectRatio : String
  resolution : String
  startFrame : Option ImageFile := none
  endFrame : Option ImageFile := none
  referenceImages : List ImageFile := []
  styleImage : Option ImageFile := none
  inputVideoObject : Option Video := none
  isLooping : Bool := false
deriving DecidableEq

/-- An image as placed into the payload: `{imageBytes, mimeType}`. -/
structure ImagePayload where
  imageBytes : String
  mimeType : String
deriving DecidableEq

/-- `VideoGenerationReferenceType` values used by the service. -/
inductive ReferenceType
  | ASSET
  | STYLE
deriving DecidableEq

/-- One entry of the payload's reference-image list. -/
structure ReferenceImagePayload where
  image : ImagePayload
  referenceType : ReferenceType
deriving DecidableEq

/-- The `config` block of the submission payload (lines 29-46, 90-94,
120-122). -/
structure GenConfig where
  numberOfVideos : Nat
  resolution : String
  aspectRatio : Option String := none
  lastFrame : Option ImagePayload := none
  referenceImages : Option (List ReferenceImagePayload) := none
deriving DecidableEq

/-- The full `generateVideoPayload` submitted to the remote service
(lines 48-131). -/
structure JobSubmission where
  model : String
  config : GenConfig
  prompt : Option String := none
  image : Option ImagePayload := none
  video : Option Video := none
deriving DecidableEq

/-- The error taxonomy of the service, one constructor per `throw` site. -/
inductive GenError
  | MissingExtensionSource
  | NoAssetsProduced
  | MissingAssetLocator
  | AssetFetchFailed (status : Nat) (statusText : String)
  | GenerationFailed
  | ChainBroken
  | StoryNoResult
deriving DecidableEq

/-- JS truthiness of an optional string: present and non-empty. -/
def strTruthy : Option String → Bool
  | none => false
  | some s => !(s == "")

/-- Line 53: `let activePrompt = overridePrompt || params.prompt`. -/
def basePrompt (overridePrompt promptField : Option String) : Option String :=
  if strTruthy overridePrompt then overridePrompt else promptField

/-- JS `Array.prototype.join(' ')`. -/
def joinSpace : List String → String
  | [] => ""
  | [a] => a
  | a :: rest => a ++ " " ++ joinSpace rest

/-- Lines 58-60: the per-reference label texts, `null` entries filtered
out; the 1-based index is the position in the full reference list. -/
def refLabelTexts (refs : List ImageFile) : List String :=
  refs.enum.filterMap fun p =>
    match p.2.description with
    | some d =>
        if d = "" then none
        else some ("(Reference " ++ toString (p.1 + 1) ++ ": " ++ d ++ ")")
    | none => none

/-- Lines 58-61: `refDescriptions`, the labels joined by single spaces. -/
def refDescriptions (refs : List ImageFile) : String :=
  joinSpace (refLabelTexts refs)

/-- Line 38: `isExtensionOperation = mode === EXTEND_VIDEO || !!overrideVideoInput`. -/
def isExtensionOp (params : GenerateVideoParams) (overrideVideoInput : Option Video) : Bool :=
  decide (params.mode = GenerationMode.EXTEND_VIDEO) || overrideVideoInput.isSome

/-- Lines 53-66: the effective prompt after the base-prompt resolution and
the conditional appending of reference label texts. -/
def activePromptOf (params : GenerateVideoParams) (overridePrompt : Option String)
    (isExt : Bool) : Option String :=
  let base := basePrompt overridePrompt params.prompt
  if isExt = false ∧ params.referenceImages ≠ [] then
    let rd := refDescriptions params.referenceImages
    if rd = "" then base
    else if strTruthy base then some (base.getD "" ++ " " ++ rd)
    else some rd
  else base

/-- Lines 76-80 and 90-94: an `ImageFile` as placed into the payload. -/
def imagePayloadOf (f : ImageFile) : ImagePayload :=
  { imageBytes := f.base64, mimeType := f.fileType }

/-- Lines 99-119: the ordered reference-image payload list, asset
references in input order followed by the style reference. -/
def referenceImagesPayload (params : GenerateVideoParams) : List ReferenceImagePayload :=
  (params.referenceImages.map fun img =>
    { image := imagePayloadOf img, referenceType := ReferenceType.ASSET }) ++
  (match params.styleImage with
   | some st => [{ image := imagePayloadOf st, referenceType := ReferenceType.STYLE }]
   | none => [])

/-- Lines 29-70: the payload before mode-specific input shaping — model,
config (aspect ratio only when not an extension), and the effective
prompt (omitted when falsy). -/
def basePayload (params : GenerateVideoParams) (overridePrompt : Option String)
    (overrideVideoInput : Option Video) : JobSubmission :=
  let isExt := isExtensionOp params overrideVideoInput
  let activePrompt := activePromptOf params overridePrompt isExt
  { model := params.model,
    config :=
      { numberOfVideos := 1,
        resolution := params.resolution,
        aspectRatio := if isExt then none else some params.aspectRatio },
    prompt := if strTruthy activePrompt then activePrompt else none }

/-- Lines 29-131 of `performGeneration`: the pure submission builder. The
only failure is the `ExtendVideo`-without-source throw (line 129). -/
def buildSubmission (params : GenerateVideoParams) (overridePrompt : Option String)
    (overrideVideoInput : Option Video) : Except GenError JobSubmission :=
  let payload0 := basePayload params overridePrompt overrideVideoInput
  match overrideVideoInput with
  | some v => Except.ok { payload0 with video := some v }
  | none =>
    if params.mode = GenerationMode.FRAMES_TO_VIDEO then
      let p1 :=
        match params.startFrame with
        | some sf => { payload0 with image := some (imagePayloadOf sf) }
        | none => payload0
      let finalEndFrame := if params.isLooping then params.startFrame else params.endFrame
      match finalEndFrame with
      | some ef =>
          Except.ok { p1 with config := { p1.config with lastFrame := some (imagePayloadOf ef) } }
      | none => Except.ok p1
    else if params.mode = GenerationMode.REFERENCES_TO_VIDEO ∨
            (params.mode = GenerationMode.STORY_MODE ∧ params.referenceImages ≠ []) then
      if isExtensionOp params overrideVideoInput = false then
        let refs := referenceImagesPayload params
        if refs.length > 0 then
          Except.ok { payload0 with config := { payload0.config with referenceImages := some refs } }
        else Except.ok payload0
      else Except.ok payload0
    else if params.mode = GenerationMode.EXTEND_VIDEO then
      match params.inputVideoObject with
      | some v => Except.ok { payload0 with video := some v }
      | none => Except.error GenError.MissingExtensionSource
    else Except.ok payload0

/-! ## The remote job cycle (lines 133-169) -/

/-- One generated-asset descriptor: an optional URI-bearing video handle. -/
structure GeneratedVideo where
  video : Option Video := none
deriving DecidableEq

/-- The terminal response block: an optional list of generated-asset
descriptors. -/
structure OpResponse where
  generatedVideos : Option (List GeneratedVideo) := none
deriving DecidableEq

/-- A remote operation handle as returned by submission and by each poll:
a `done` flag and, once done, an optional response block. -/
structure Operation where
  done : Bool
  response : Option OpResponse := none
deriving DecidableEq

/-- A transport response of the authenticated asset fetch. `blob` stands
for the raw asset bytes. -/
structure FetchResponse where
  ok : Bool
  status : Nat := 200
  statusText : String := ""
  blob : String := ""
deriving DecidableEq

/-- A finite script of remote behaviour for one job cycle: the operation
returned by `generateVideos`, the successive answers of
`getVideosOperation`, and the asset-fetch response. -/
structure RemoteScript where
  submitResp : Operation
  pollResps : List Operation := []
  fetchResp : FetchResponse := { ok := true }
deriving DecidableEq

/-- The value resolved by `performGeneration` (lines 14-19, 163-165). -/
structure GenerationResult where
  objectUrl : String
  blob : String
  uri : String
  video : Video
deriving DecidableEq

/-- `decodeURIComponent`, abstracted as the identity on our opaque URI
strings (no claim depends on percent-decoding). -/
def decodeURIComponentModel (s : String) : String := s

/-- `URL.createObjectURL`, abstracted as a deterministic local handle for
the fetched bytes. -/
def createObjectURLModel (blob : String) : String := "blob:" ++ blob

/-- The observable remote interactions of one `generate` call. -/
inductive EvKind
  | submit (payload : JobSubmission)
  | poll
  | fetchAsset
deriving DecidableEq

/-- A remote interaction stamped with the milliseconds elapsed since the
cycle's submission (the poll loop sleeps 10000 ms before every poll). -/
structure Ev where
  time : Nat
  kind : EvKind
deriving DecidableEq

/-- The outcome of a modelled call: a result, a thrown error, or — when
the poll script is exhausted with the job still running — `hang`, standing
for the real loop polling forever. -/
inductive Outcome
  | ok (r : GenerationResult)
  | err (e : GenError)
  | hang
deriving DecidableEq

/-- Lines 137-141: the poll loop. Starting from the operation in hand it
sleeps 10000 ms and polls, consuming the script, until the operation is
done; returns the final operation (or `none` if the script ran out) and
the timestamped poll events. -/
def pollLoop (op : Operation) (script : List Operation) (t : Nat) :
    Option Operation × List Ev :=
  if op.done then (some op, [])
  else
    match script with
    | [] => (none, [])
    | next :: rest =>
      let r := pollLoop next rest (t + 10000)
      (r.1, { time := t + 10000, kind := EvKind.poll } :: r.2)

/-- Whether a generated-asset descriptor carries a retrievable location:
`firstVideo?.video?.uri` is truthy (lines 150-152). -/
def descriptorHasLocator (g : GeneratedVideo) : Bool :=
  match g.video with
  | some v =>
    match v.uri with
    | some u => !(u == "")
    | none => false
  | none => false

/-- Lines 143-169: from the terminal operation to the result — asset-list
checks, locator check, authenticated fetch (the returned events are the
fetch calls, stamped with the time `t` at which the loop ended). -/
def finishCycle (script : RemoteScript) (op : Operation) (t : Nat) : Outcome × List Ev :=
  match op.response with
  | some resp =>
    match resp.generatedVideos with
    | none => (Outcome.err GenError.NoAssetsProduced, [])
    | some vids =>
      match vids with
      | [] => (Outcome.err GenError.NoAssetsProduced, [])
      | firstVideo :: _ =>
        match firstVideo.video with
        | none => (Outcome.err GenError.MissingAssetLocator, [])
        | some videoObject =>
          match videoObject.uri with
          | none => (Outcome.err GenError.MissingAssetLocator, [])
          | some u =>
            if u = "" then (Outcome.err GenError.MissingAssetLocator, [])
            else
              let url := decodeURIComponentModel u
              let fe : Ev := { time := t, kind := EvKind.fetchAsset }
              let res := script.fetchResp
              if res.ok then
                (Outcome.ok
                  { objectUrl := createObjectURLModel res.blob,
                    blob := res.blob, uri := url, video := videoObject }, [fe])
              else
                (Outcome.err (GenError.AssetFetchFailed res.status res.statusText), [fe])
  | none => (Outcome.err GenError.GenerationFailed, [])

/-- Lines 133-169: one remote job cycle for an already-built submission:
submit, poll until done, then fetch. -/
def runCycle (sub : JobSubmission) (script : RemoteScript) : Outcome × List Ev :=
  let submitEv : Ev := { time := 0, kind := EvKind.submit sub }
  let pl := pollLoop script.submitResp script.pollResps 0
  match pl.1 with
  | none => (Outcome.hang, submitEv :: pl.2)
  | some finalOp =>
    let fin := finishCycle script finalOp (10000 * pl.2.length)
    (fin.1, submitEv :: (pl.2 ++ fin.2))

/-- Lines 22-170: `performGeneration` — build the submission, then run the
remote job cycle; a build failure is thrown before any remote call. -/
def performGeneration (params : GenerateVideoParams) (overridePrompt : Option String)
    (overrideVideoInput : Option Video) (script : RemoteScript) : Outcome × List Ev :=
  match buildSubmission params overridePrompt overrideVideoInput with
  | Except.error e => (Outcome.err e, [])
  | Except.ok sub => runCycle sub script

/-! ## The story-sequence loop (lines 172-224) -/

/-- Lines 185-218: the story loop of `generateVideo`. `i` is the 0-based
step index, `current` the mutable `currentResult`; the step at index `i`
consumes the remote script `remotes i`. -/
def storySteps (params : GenerateVideoParams) (remotes : Nat → RemoteScript) :
    List String → Nat → Option GenerationResult → Outcome × List Ev
  | [], _, current =>
    match current with
    | some r => (Outcome.ok r, [])
    | none => (Outcome.err GenError.StoryNoResult, [])
  | currentPrompt :: rest, i, current =>
    if i = 0 then
      let step := performGeneration
        { params with mode := GenerationMode.STORY_MODE, prompt := some currentPrompt }
        none none (remotes i)
      match step.1 with
      | Outcome.ok r =>
        let next := storySteps params remotes rest (i + 1) (some r)
        (next.1, step.2 ++ next.2)
      | o => (o, step.2)
    else
      match current with
      | none => (Outcome.err GenError.ChainBroken, [])
      | some prev =>
        let step := performGeneration params (some currentPrompt) (some prev.video) (remotes i)
        match step.1 with
        | Outcome.ok r =>
          let next := storySteps params remotes rest (i + 1) (some r)
          (next.1, step.2 ++ next.2)
        | o => (o, step.2)

/-- Lines 172-224: `generateVideo`. The story path is taken exactly when
the mode is `STORY_MODE` and `storyPrompts` is present and non-empty;
otherwise a single cycle runs (consuming the script at index 0). -/
def generateVideo (params : GenerateVideoParams) (remotes : Nat → RemoteScript) :
    Outcome × List Ev :=
  match params.storyPrompts with
  | some prompts =>
    if params.mode = GenerationMode.STORY_MODE ∧ prompts.length > 0 then
      storySteps params remotes prompts 0 none
    else performGeneration params none none (remotes 0)
  | none => performGeneration params none none (remotes 0)

/-! ## Trace observations -/

/-- The payloads of the submit events of a trace, in order. -/
def submittedPayloads (tr : List Ev) : List JobSubmission :=
  tr.filterMap fun e =>
    match e.kind with
    | EvKind.submit p => some p
    | _ => none

/-- The timestamps of the poll events of a trace, in order. -/
def pollTimes (tr : List Ev) : List Nat :=
  tr.filterMap fun e =>
    match e.kind with
    | EvKind.poll => some e.time
    | _ => none

/-- The number of poll calls recorded in a trace. -/
def countPolls (tr : List Ev) : Nat := (pollTimes tr).length

/-- The number of asset-fetch calls recorded in a trace. -/
def countFetches (tr : List Ev) : Nat :=
  (tr.filterMap fun e =>
    match e.kind with
    | EvKind.fetchAsset => some e.time
    | _ => none).length

/-- The outcome a remote script forces for any submission (the cycle's
outcome never depends on the payload, only on the script). -/
def scriptOutcome (s : RemoteScript) : Outcome :=
  let pl := pollLoop s.submitResp s.pollResps 0
  match pl.1 with
  | none => Outcome.hang
  | some finalOp => (finishCycle s finalOp (10000 * pl.2.length)).1

/-- Whether a remote script drives a cycle to a successful result. -/
def scriptOk (s : RemoteScript) : Bool :=
  match scriptOutcome s with
  | Outcome.ok _ => true
  | _ => false

/-- The result a successful remote script produces (junk on failure). -/
def scriptRes (s : RemoteScript) : GenerationResult :=
  match scriptOutcome s with
  | Outcome.ok r => r
  | _ => { objectUrl := "", blob := "", uri := "", video := {} }

/-! ## Spec-side definition for the effective-prompt refinement claims -/

/-- Follows the spec's words (section 4.1): the effective prompt is the
base prompt followed by the non-empty reference label texts, all joined
by single spaces; when the base prompt is empty or absent the joined
label text is the whole prompt. -/
def specEffectivePrompt (base : Option String) (texts : List String) : String :=
  if strTruthy base then joinSpace (base.getD "" :: texts) else joinSpace texts

/-! ## Concrete fixtures for witnesses and counterexamples -/

/-- A reference image labelled "Hero". -/
def imgHero : ImageFile :=
  { base64 := "aGVybw", fileType := "image/png", fileName := "hero.png",
    description := some "Hero" }

/-- A reference image with an empty label. -/
def imgBlank : ImageFile :=
  { base64 := "Ymxhbms", fileType := "image/jpeg", fileName := "blank.jpg",
    description := some "" }

/-- A style image. -/
def imgStyle : ImageFile :=
  { base64 := "c3R5bGU", fileType := "image/png", fileName := "style.png" }

/-- A plain start-frame image. -/
def imgStart : ImageFile :=
  { base64 := "c3RhcnQ", fileType := "image/png", fileName := "start.png" }

/-- The spec's worked example: a references-to-video request with
reference images labelled "Hero" and "" and prompt "A chase". -/
def chaseParams : GenerateVideoParams :=
  { mode := GenerationMode.REFERENCES_TO_VIDEO, prompt := some "A chase",
    model := "veo-3.1-generate-preview", aspectRatio := "16:9", resolution := "720p",
    referenceImages := [imgHero, imgBlank] }

/-- The submission built for `chaseParams`. -/
def chaseSub : JobSubmission :=
  { model := "veo-3.1-generate-preview",
    config :=
      { numberOfVideos := 1, resolution := "720p", aspectRatio := some "16:9",
        referenceImages := some
          [{ image := { imageBytes := "aGVybw", mimeType := "image/png" },
             referenceType := ReferenceType.ASSET },
           { image := { imageBytes := "Ymxhbms", mimeType := "image/jpeg" },
             referenceType := ReferenceType.ASSET }] },
    prompt := some "A chase (Reference 1: Hero)" }

/-- A plain text-to-video request whose own prompt is "cat". -/
def catParams : GenerateVideoParams :=
  { mode := GenerationMode.TEXT_TO_VIDEO, prompt := some "cat",
    model := "veo-3.1-fast-generate-preview", aspectRatio := "16:9", resolution := "720p" }

/-- The submission built for `catParams`, with or without an empty-string
prompt override. -/
def catSub : JobSubmission :=
  { model := "veo-3.1-fast-generate-preview",
    config := { numberOfVideos := 1, resolution := "720p", aspectRatio := some "16:9" },
    prompt := some "cat" }

/-- A frames-to-video request with a start frame and the looping flag. -/
def framesParams : GenerateVideoParams :=
  { mode := GenerationMode.FRAMES_TO_VIDEO, prompt := some "loop it",
    model := "veo-3.1-fast-generate-preview", aspectRatio := "9:16", resolution := "720p",
    startFrame := some imgStart, isLooping := true }

/-- The submission built for `framesParams`: the start frame doubles as
the last frame because of the looping flag. -/
def framesSub : JobSubmission :=
  { model := "veo-3.1-fast-generate-preview",
    config :=
      { numberOfVideos := 1, resolution := "720p", aspectRatio := some "9:16",
        lastFrame := some { imageBytes := "c3RhcnQ", mimeType := "image/png" } },
    prompt := some "loop it",
    image := some { imageBytes := "c3RhcnQ", mimeType := "image/png" } }

/-- An extend-video request missing its input video object. -/
def extParams : GenerateVideoParams :=
  { mode := GenerationMode.EXTEND_VIDEO, prompt := some "more",
    model := "veo-3.1-fast-generate-preview", aspectRatio := "16:9", resolution := "720p" }

/-- A text-to-video request that nonetheless carries reference images and
a style image. -/
def textWithRefsParams : GenerateVideoParams :=
  { mode := GenerationMode.TEXT_TO_VIDEO, prompt := some "A chase",
    model := "veo-3.1-fast-generate-preview", aspectRatio := "16:9", resolution := "720p",
    referenceImages := [imgHero, imgBlank], styleImage := some imgStyle }

/-- The submission built for `textWithRefsParams`: no reference payload,
but the "Hero" label is appended to the prompt. -/
def textWithRefsSub : JobSubmission :=
  { model := "veo-3.1-fast-generate-preview",
    config := { numberOfVideos := 1, resolution := "720p", aspectRatio := some "16:9" },
    prompt := some "A chase (Reference 1: Hero)" }

/-- A remote script that is done immediately (its poll list is unused by
a build failure). -/
def emptyScript : RemoteScript := { submitResp := { done := true } }

/-! ## Remote-script fixtures for witnesses -/

def vidA : Video := { uri := some "https://v/a" }

def vidB : Video := { uri := some "https://v/b" }

def runningOp : Operation := { done := false }

def doneOpWith (v : Video) : Operation :=
  { done := true, response := some { generatedVideos := some [{ video := some v }] } }

def okScriptA : RemoteScript := { submitResp := doneOpWith vidA }

def okScriptB : RemoteScript :=
  { submitResp := runningOp,
    pollResps := [runningOp, runningOp, runningOp, doneOpWith vidB] }

def emptyAssetsOp : Operation :=
  { done := true, response := some { generatedVideos := some [] } }

def emptyAssetsScript : RemoteScript := { submitResp := emptyAssetsOp }

def w6pre : List Operation := [runningOp, runningOp, runningOp]

def storyParams : GenerateVideoParams :=
  { mode := GenerationMode.STORY_MODE, storyPrompts := some ["open", "continue"],
    model := "veo-3.1-generate-preview", aspectRatio := "16:9", resolution := "720p" }

def remotesAB : Nat → RemoteScript := fun i => if i = 0 then okScriptA else okScriptB

/-! ## Field characterization of the submission builder -/

@[simp] lemma basePayload_model (p : GenerateVideoParams) (op : Option String) (ov : Option Video) :
    (basePayload p op ov).model = p.model := rfl

@[simp] lemma basePayload_numberOfVideos (p : GenerateVideoParams) (op : Option String) (ov : Option Video) :
    (basePayload p op ov).config.numberOfVideos = 1 := rfl

@[simp] lemma basePayload_resolution (p : GenerateVideoParams) (op : Option String) (ov : Option Video) :
    (basePayload p op ov).config.resolution = p.resolution := rfl

@[simp] lemma basePayload_aspect (p : GenerateVideoParams) (op : Option String) (ov : Option Video) :
    (basePayload p op ov).config.aspectRatio =
      (if isExtensionOp p ov then none else some p.aspectRatio) := rfl

@[simp] lemma basePayload_prompt (p : GenerateVideoParams) (op : Option String) (ov : Option Video) :
    (basePayload p op ov).prompt =
      (if strTruthy (activePromptOf p op (isExtensionOp p ov)) then
        activePromptOf p op (isExtensionOp p ov) else none) := rfl

@[simp] lemma basePayload_image (p : GenerateVideoParams) (op : Option String) (ov : Option Video) :
    (basePayload p op ov).image = none := rfl

@[simp] lemma basePayload_video (p : GenerateVideoParams) (op : Option String) (ov : Option Video) :
    (basePayload p op ov).video = none := rfl

@[simp] lemma basePayload_lastFrame (p : GenerateVideoParams) (op : Option String) (ov : Option Video) :
    (basePayload p op ov).config.lastFrame = none := rfl

@[simp] lemma basePayload_refImages (p : GenerateVideoParams) (op : Option String) (ov : Option Video) :
    (basePayload p op ov).config.referenceImages = none := rfl

theorem buildSubmission_fields (params : GenerateVideoParams) (op : Option String)
    (ov : Option Video) (s : JobSubmission)
    (h : buildSubmission params op ov = Except.ok s) :
    s.model = params.model ∧
    s.config.numberOfVideos = 1 ∧
    s.config.resolution = params.resolution ∧
    s.config.aspectRatio = (if isExtensionOp params ov then none else some params.aspectRatio) ∧
    s.prompt = (if strTruthy (activePromptOf params op (isExtensionOp params ov)) then
        activePromptOf params op (isExtensionOp params ov) else none) ∧
    s.video = (if ov.isSome then ov
      else if params.mode = GenerationMode.EXTEND_VIDEO then params.inputVideoObject else none) ∧
    s.image = (if ov = none ∧ params.mode = GenerationMode.FRAMES_TO_VIDEO then
        params.startFrame.map imagePayloadOf else none) ∧
    s.config.lastFrame = (if ov = none ∧ params.mode = GenerationMode.FRAMES_TO_VIDEO then
        (if params.isLooping then params.startFrame else params.endFrame).map imagePayloadOf
      else none) ∧
    s.config.referenceImages = (if ov = none ∧
        (params.mode = GenerationMode.REFERENCES_TO_VIDEO ∨
          (params.mode = GenerationMode.STORY_MODE ∧ params.referenceImages ≠ [])) ∧
        referenceImagesPayload params ≠ [] then some (referenceImagesPayload params) else none) := by
  cases ov with
  | some v =>
    simp only [buildSubmission, Except.ok.injEq] at h
    subst h
    simp [isExtensionOp]
  | none =>
    cases hmode : params.mode with
    | TEXT_TO_VIDEO =>
      simp [buildSubmission, isExtensionOp, hmode] at h
      subst h
      simp [hmode, isExtensionOp]
    | FRAMES_TO_VIDEO =>
      cases hsf : params.startFrame <;> cases hl : params.isLooping <;>
        cases hef : params.endFrame <;>
        (simp [buildSubmission, isExtensionOp, hmode, hsf, hl, hef] at h;
         subst h;
         simp [hmode, isExtensionOp, hsf, hl, hef])
    | REFERENCES_TO_VIDEO =>
      by_cases hp : referenceImagesPayload params = []
      · simp [buildSubmission, isExtensionOp, hmode, hp] at h
        subst h
        simp [hmode, isExtensionOp, hp]
      · simp [buildSubmission, isExtensionOp, hmode, List.length_pos, hp] at h
        subst h
        simp [hmode, isExtensionOp, hp]
    | STORY_MODE =>
      by_cases hr : params.referenceImages = []
      · simp [buildSubmission, isExtensionOp, hmode, hr] at h
        subst h
        simp [hmode, isExtensionOp, hr]
      · by_cases hp : referenceImagesPayload params = []
        · exfalso
          simp only [referenceImagesPayload] at hp
          obtain ⟨h1, h2⟩ := List.append_eq_nil.mp hp
          exact hr (List.map_eq_nil_iff.mp h1)
        · simp [buildSubmission, isExtensionOp, hmode, List.length_pos, hp, hr] at h
          subst h
          simp [hmode, isExtensionOp, hp, hr]
    | EXTEND_VIDEO =>
      cases hin : params.inputVideoObject with
      | some v =>
        simp [buildSubmission, isExtensionOp, hmode, hin] at h
        subst h
        simp [hmode, isExtensionOp, hin]
      | none =>
        simp [buildSubmission, isExtensionOp, hmode, hin] at h

/-! ## String and prompt helper lemmas -/

lemma append_ne_empty_left (a b : String) (ha : a ≠ "") : a ++ b ≠ "" := by
  intro h
  apply ha
  have hd := congrArg String.data h
  rw [String.data_append] at hd
  have hd2 : a.data ++ b.data = ([] : List Char) := hd
  have h1 : a.data = [] := (List.append_eq_nil.mp hd2).1
  apply String.ext
  simpa using h1

lemma strTruthy_some {s : String} (h : s ≠ "") : strTruthy (some s) = true := by
  simpa [strTruthy] using h

lemma strTruthy_getD {o : Option String} (h : strTruthy o = true) : o.getD "" ≠ "" := by
  cases o with
  | none => simp [strTruthy] at h
  | some s => simpa [strTruthy] using h

lemma mem_refLabelTexts_ne_empty {refs : List ImageFile} {x : String}
    (hx : x ∈ refLabelTexts refs) : x ≠ "" := by
  simp only [refLabelTexts, List.mem_filterMap] at hx
  obtain ⟨p, -, hp⟩ := hx
  cases hd : p.2.description with
  | none => rw [hd] at hp; simp at hp
  | some d =>
    rw [hd] at hp
    by_cases hde : d = ""
    · simp [hde] at hp
    · simp only [hde, if_false, reduceIte, Option.some.injEq] at hp
      intro hx0
      rw [hx0] at hp
      exact append_ne_empty_left _ _ (append_ne_empty_left _ _
        (append_ne_empty_left _ _ (append_ne_empty_left _ _ (by decide)))) hp

lemma joinSpace_cons_ne (a : String) (l : List String) (hl : l ≠ []) :
    joinSpace (a :: l) = a ++ " " ++ joinSpace l := by
  cases l with
  | nil => exact absurd rfl hl
  | cons b t => rfl

lemma joinSpace_ne_empty (a : String) (l : List String) (ha : a ≠ "") :
    joinSpace (a :: l) ≠ "" := by
  cases l with
  | nil => simpa [joinSpace] using ha
  | cons b t =>
    rw [joinSpace_cons_ne a (b :: t) (by simp)]
    exact append_ne_empty_left _ _ (append_ne_empty_left _ _ ha)

lemma refs_ne_empty_of_labels {refs : List ImageFile}
    (h : refLabelTexts refs ≠ []) : refs ≠ [] := by
  intro hr
  subst hr
  exact h rfl

lemma refDescriptions_ne_empty {refs : List ImageFile}
    (h : refLabelTexts refs ≠ []) : refDescriptions refs ≠ "" := by
  rw [refDescriptions]
  cases ht : refLabelTexts refs with
  | nil => exact absurd ht h
  | cons a l =>
    have ha : a ∈ refLabelTexts refs := by rw [ht]; exact List.mem_cons_self a l
    exact joinSpace_ne_empty a l (mem_refLabelTexts_ne_empty ha)

/-- On a non-extension build whose references carry at least one
non-empty label, the active prompt is the spec formula, and non-empty. -/
lemma activePromptOf_labels (params : GenerateVideoParams) (op : Option String)
    (hlab : refLabelTexts params.referenceImages ≠ []) :
    activePromptOf params op false =
      some (specEffectivePrompt (basePrompt op params.prompt)
        (refLabelTexts params.referenceImages)) ∧
    (activePromptOf params op false).getD "" ≠ "" := by
  have hrefs : params.referenceImages ≠ [] := refs_ne_empty_of_labels hlab
  have hrd : refDescriptions params.referenceImages ≠ "" := refDescriptions_ne_empty hlab
  simp only [activePromptOf, specEffectivePrompt]
  rw [if_pos (And.intro trivial hrefs), if_neg hrd]
  by_cases hb : strTruthy (basePrompt op params.prompt) = true
  · rw [if_pos hb, if_pos hb]
    rw [joinSpace_cons_ne _ _ hlab, ← refDescriptions]
    exact ⟨rfl, append_ne_empty_left _ _ (append_ne_empty_left _ _ (strTruthy_getD hb))⟩
  · rw [if_neg hb, if_neg hb]
    rw [← refDescriptions]
    exact ⟨rfl, hrd⟩

/-- The submission prompt of any non-extension build whose references
carry at least one non-empty label follows the spec's formula. -/
lemma prompt_with_labels (params : GenerateVideoParams) (op : Option String)
    (s : JobSubmission)
    (hext : params.mode ≠ GenerationMode.EXTEND_VIDEO)
    (hlab : refLabelTexts params.referenceImages ≠ [])
    (h : buildSubmission params op none = Except.ok s) :
    s.prompt = some (specEffectivePrompt (basePrompt op params.prompt)
      (refLabelTexts params.referenceImages)) := by
  obtain ⟨-, -, -, -, hp, -, -, -, -⟩ := buildSubmission_fields params op none s h
  have hxo : isExtensionOp params none = false := by simp [isExtensionOp, hext]
  rw [hxo] at hp
  obtain ⟨hap, hne⟩ := activePromptOf_labels params op hlab
  rw [hap] at hp hne
  rw [hp, if_pos (strTruthy_some (by simpa using hne))]

/-! ## Claim theorems about the submission builder -/

/-- Claim C2: the built submission contains `aspectRatio` iff the
request's mode is not `ExtendVideo` and no prior-video override is
supplied; and in that same non-extension case the submission never
contains a prior-video field. -/
theorem aspect_iff_non_extension (params : GenerateVideoParams) (op : Option String)
    (ov : Option Video) (s : JobSubmission)
    (h : buildSubmission params op ov = Except.ok s) :
    (s.config.aspectRatio.isSome ↔
      (params.mode ≠ GenerationMode.EXTEND_VIDEO ∧ ov = none)) ∧
    ((params.mode ≠ GenerationMode.EXTEND_VIDEO ∧ ov = none) → s.video = none) := by
  obtain ⟨-, -, -, ha, -, hv, -, -, -⟩ := buildSubmission_fields params op ov s h
  constructor
  · rw [ha]
    by_cases hm : params.mode = GenerationMode.EXTEND_VIDEO
    · simp [isExtensionOp, hm]
    · cases ov <;> simp [isExtensionOp, hm]
  · rintro ⟨hm, rfl⟩
    rw [hv]
    simp [hm]

/-- Claim C2 witness: a plain text-to-video request keeps its aspect
ratio and carries no prior-video field. -/
theorem aspect_iff_non_extension_witness :
    buildSubmission catParams none none = Except.ok catSub ∧
    ((catSub.config.aspectRatio.isSome ↔
        (catParams.mode ≠ GenerationMode.EXTEND_VIDEO ∧ (none : Option Video) = none)) ∧
      ((catParams.mode ≠ GenerationMode.EXTEND_VIDEO ∧ (none : Option Video) = none) →
        catSub.video = none)) :=
  ⟨rfl, aspect_iff_non_extension catParams none none catSub rfl⟩

/-- Claim C3: on a non-extension build whose references carry labels, the
effective prompt is the base prompt followed by the texts
"(Reference i: label)" of the non-empty labels in input order, joined by
single spaces (the joined text alone when the base prompt is empty); in
particular the spec's worked example builds exactly
"A chase (Reference 1: Hero)". -/
theorem reference_labels_prompt (params : GenerateVideoParams) (op : Option String)
    (s : JobSubmission)
    (hext : params.mode ≠ GenerationMode.EXTEND_VIDEO)
    (hlab : refLabelTexts params.referenceImages ≠ [])
    (h : buildSubmission params op none = Except.ok s) :
    s.prompt = some (specEffectivePrompt (basePrompt op params.prompt)
      (refLabelTexts params.referenceImages)) ∧
    refLabelTexts [imgHero, imgBlank] = ["(Reference 1: Hero)"] ∧
    buildSubmission chaseParams none none = Except.ok chaseSub ∧
    chaseSub.prompt = some "A chase (Reference 1: Hero)" :=
  ⟨prompt_with_labels params op s hext hlab h, rfl, rfl, rfl⟩

/-- Claim C3 witness: the worked example instantiates the theorem. -/
theorem reference_labels_prompt_witness :
    chaseParams.mode ≠ GenerationMode.EXTEND_VIDEO ∧
    refLabelTexts chaseParams.referenceImages ≠ [] ∧
    (chaseSub.prompt = some (specEffectivePrompt (basePrompt none chaseParams.prompt)
        (refLabelTexts chaseParams.referenceImages)) ∧
      refLabelTexts [imgHero, imgBlank] = ["(Reference 1: Hero)"] ∧
      buildSubmission chaseParams none none = Except.ok chaseSub ∧
      chaseSub.prompt = some "A chase (Reference 1: Hero)") :=
  ⟨by decide, by decide,
    reference_labels_prompt chaseParams none chaseSub (by decide) (by decide) rfl⟩

/-- Claim C7: on a frames-to-video build with no prior-video override,
the start frame (when present) is the first-frame input, and the
last-frame input is set exactly when the effective end frame — the start
frame when looping, else the explicit end frame — is present, to that
frame. -/
theorem frames_inputs (params : GenerateVideoParams) (op : Option String)
    (s : JobSubmission)
    (hmode : params.mode = GenerationMode.FRAMES_TO_VIDEO)
    (h : buildSubmission params op none = Except.ok s) :
    s.image = params.startFrame.map imagePayloadOf ∧
    s.config.lastFrame =
      (if params.isLooping then params.startFrame else params.endFrame).map imagePayloadOf ∧
    (s.config.lastFrame.isSome ↔
      (if params.isLooping then params.startFrame else params.endFrame).isSome) := by
  obtain ⟨-, -, -, -, -, -, hi, hl, -⟩ := buildSubmission_fields params op none s h
  rw [hmode] at hi hl
  simp only [and_self, if_true, and_true, reduceIte] at hi hl
  refine ⟨hi, hl, ?_⟩
  rw [hl]
  cases hE : (if params.isLooping = true then params.startFrame else params.endFrame) <;>
    simp [hE]

/-- Claim C7 witness: looping frames-to-video with a start frame only. -/
theorem frames_inputs_witness :
    framesParams.mode = GenerationMode.FRAMES_TO_VIDEO ∧
    buildSubmission framesParams none none = Except.ok framesSub ∧
    (framesSub.image = framesParams.startFrame.map imagePayloadOf ∧
      framesSub.config.lastFrame =
        (if framesParams.isLooping then framesParams.startFrame
          else framesParams.endFrame).map imagePayloadOf ∧
      (framesSub.config.lastFrame.isSome ↔
        (if framesParams.isLooping then framesParams.startFrame
          else framesParams.endFrame).isSome)) :=
  ⟨rfl, rfl, frames_inputs framesParams none framesSub rfl rfl⟩

/-- Claim C8 counterexample: with an empty-string prompt override the
code falls back to the request's own prompt ("cat"), so the effective
prompt does not equal the supplied override. -/
theorem override_prompt_counterexample :
    basePrompt (some "") catParams.prompt = some "cat" ∧
    buildSubmission catParams (some "") none = Except.ok catSub ∧
    catSub.prompt = some "cat" ∧
    some "cat" ≠ (some "" : Option String) :=
  ⟨rfl, rfl, rfl, by decide⟩

/-- Claim C8 as amended: the base prompt equals the override whenever a
non-empty override is given, and equals the request's own prompt when the
override is absent or the empty string; for requests without reference
images this base prompt is the submission's prompt (omitted when falsy). -/
theorem override_prompt_amended (params : GenerateVideoParams) (op : Option String)
    (ov : Option Video) (s : JobSubmission)
    (hrefs : params.referenceImages = [])
    (h : buildSubmission params op ov = Except.ok s) :
    (∀ t, op = some t → t ≠ "" → basePrompt op params.prompt = some t) ∧
    ((op = none ∨ op = some "") → basePrompt op params.prompt = params.prompt) ∧
    s.prompt = (if strTruthy (basePrompt op params.prompt) then basePrompt op params.prompt
      else none) := by
  obtain ⟨-, -, -, -, hp, -, -, -, -⟩ := buildSubmission_fields params op ov s h
  refine ⟨?_, ?_, ?_⟩
  · rintro t rfl ht
    simp [basePrompt, strTruthy, ht]
  · rintro (rfl | rfl) <;> simp [basePrompt, strTruthy]
  · rw [hp]
    simp [activePromptOf, hrefs]

/-- Claim C8 amended witness: the empty-string override instance. -/
theorem override_prompt_amended_witness :
    catParams.referenceImages = [] ∧
    ((∀ t, (some "" : Option String) = some t → t ≠ "" →
        basePrompt (some "") catParams.prompt = some t) ∧
      (((some "" : Option String) = none ∨ (some "" : Option String) = some "") →
        basePrompt (some "") catParams.prompt = catParams.prompt) ∧
      catSub.prompt = (if strTruthy (basePrompt (some "") catParams.prompt) then
        basePrompt (some "") catParams.prompt else none)) :=
  ⟨rfl, override_prompt_amended catParams (some "") none catSub rfl rfl⟩

/-- Claim C10: a non-extension request whose mode is neither
references-to-video nor story-with-references gets a submission with no
reference-image list (hence no style image either), while the non-empty
reference labels are still appended to the prompt. -/
theorem no_reference_payload_but_labels (params : GenerateVideoParams) (op : Option String)
    (s : JobSubmission)
    (hext : params.mode ≠ GenerationMode.EXTEND_VIDEO)
    (hrv : params.mode ≠ GenerationMode.REFERENCES_TO_VIDEO)
    (hst : ¬(params.mode = GenerationMode.STORY_MODE ∧ params.referenceImages ≠ []))
    (h : buildSubmission params op none = Except.ok s) :
    s.config.referenceImages = none ∧
    (refLabelTexts params.referenceImages ≠ [] →
      s.prompt = some (specEffectivePrompt (basePrompt op params.prompt)
        (refLabelTexts params.referenceImages))) := by
  obtain ⟨-, -, -, -, -, -, -, -, hr⟩ := buildSubmission_fields params op none s h
  refine ⟨?_, fun hlab => prompt_with_labels params op s hext hlab h⟩
  rw [hr]
  simp [hrv, hst]

/-- Claim C10 witness: text-to-video with reference and style images
set. -/
theorem no_reference_payload_but_labels_witness :
    textWithRefsParams.mode ≠ GenerationMode.EXTEND_VIDEO ∧
    textWithRefsParams.mode ≠ GenerationMode.REFERENCES_TO_VIDEO ∧
    (¬(textWithRefsParams.mode = GenerationMode.STORY_MODE ∧
        textWithRefsParams.referenceImages ≠ [])) ∧
    (textWithRefsSub.config.referenceImages = none ∧
      (refLabelTexts textWithRefsParams.referenceImages ≠ [] →
        textWithRefsSub.prompt = some (specEffectivePrompt
          (basePrompt none textWithRefsParams.prompt)
          (refLabelTexts textWithRefsParams.referenceImages)))) :=
  ⟨by decide, by decide, by decide,
    no_reference_payload_but_labels textWithRefsParams none textWithRefsSub
      (by decide) (by decide) (by decide) rfl⟩

/-- Claim C4: an extend-video request with no input video object and no
prior-video override fails with the missing-extension-source error and
makes zero remote submit, poll and fetch calls. -/
theorem missing_extension_source (params : GenerateVideoParams) (script : RemoteScript)
    (hmode : params.mode = GenerationMode.EXTEND_VIDEO)
    (hin : params.inputVideoObject = none) :
    performGeneration params none none script =
      (Outcome.err GenError.MissingExtensionSource, []) ∧
    submittedPayloads (performGeneration params none none script).2 = [] ∧
    countPolls (performGeneration params none none script).2 = 0 ∧
    countFetches (performGeneration params none none script).2 = 0 := by
  have hb : buildSubmission params none none = Except.error GenError.MissingExtensionSource := by
    simp [buildSubmission, isExtensionOp, hmode, hin]
  have hpg : performGeneration params none none script =
      (Outcome.err GenError.MissingExtensionSource, []) := by
    simp [performGeneration, hb]
  refine ⟨hpg, ?_, ?_, ?_⟩ <;> rw [hpg] <;> rfl

/-- Claim C4 witness: the concrete extend-video request without source. -/
theorem missing_extension_source_witness :
    extParams.mode = GenerationMode.EXTEND_VIDEO ∧
    extParams.inputVideoObject = none ∧
    (performGeneration extParams none none emptyScript =
        (Outcome.err GenError.MissingExtensionSource, []) ∧
      submittedPayloads (performGeneration extParams none none emptyScript).2 = [] ∧
      countPolls (performGeneration extParams none none emptyScript).2 = 0 ∧
      countFetches (performGeneration extParams none none emptyScript).2 = 0) :=
  ⟨rfl, rfl, missing_extension_source extParams emptyScript rfl rfl⟩

/-! ## Remote job cycle lemmas -/

lemma pollLoop_nil_events (op : Operation) (t : Nat) :
    (pollLoop op [] t).2 = [] := by
  rw [pollLoop.eq_def]
  split <;> rfl

lemma pollLoop_kinds (script : List Operation) :
    ∀ (op : Operation) (t : Nat) (e : Ev), e ∈ (pollLoop op script t).2 →
      e.kind = EvKind.poll := by
  induction script with
  | nil =>
    intro op t e he
    rw [pollLoop_nil_events] at he
    exact absurd he (List.not_mem_nil e)
  | cons next rest ih =>
    intro op t e he
    rw [pollLoop.eq_def] at he
    by_cases hd : op.done = true
    · rw [if_pos hd] at he
      exact absurd he (List.not_mem_nil e)
    · rw [if_neg hd] at he
      simp only [List.mem_cons] at he
      rcases he with rfl | he
      · rfl
      · exact ih next (t + 10000) e he

lemma pollLoop_main (fin : Operation) (hfin : fin.done = true) :
    ∀ (pre : List Operation) (op : Operation) (t : Nat), op.done = false →
    (∀ o ∈ pre, o.done = false) →
    pollLoop op (pre ++ [fin]) t =
      (some fin, (List.range (pre.length + 1)).map
        (fun i => { time := t + 10000 * (i + 1), kind := EvKind.poll })) := by
  intro pre
  induction pre with
  | nil =>
    intro op t hop _
    rw [pollLoop.eq_def, if_neg (by simp [hop])]
    simp only [List.nil_append]
    rw [pollLoop.eq_def, if_pos hfin]
    apply Prod.ext <;> simp [List.range_succ]
  | cons o pre ih =>
    intro op t hop hpre
    rw [pollLoop.eq_def, if_neg (by simp [hop])]
    simp only [List.cons_append]
    rw [ih o (t + 10000) (hpre o (List.mem_cons_self o pre))
      (fun x hx => hpre x (List.mem_cons_of_mem o hx))]
    simp only [List.length_cons]
    rw [List.range_succ_eq_map (pre.length + 1)]
    simp only [List.map_cons, List.map_map]
    apply Prod.ext
    · rfl
    · simp only [List.cons.injEq]
      constructor
      · simp only [Ev.mk.injEq, and_true]
        try omega
      · apply List.map_congr_left
        intro a ha
        simp only [Function.comp_apply, Ev.mk.injEq, and_true]
        try omega

lemma runCycle_eq (sub : JobSubmission) (s : RemoteScript) (pre : List Operation)
    (fin : Operation)
    (h0 : s.submitResp.done = false) (hscript : s.pollResps = pre ++ [fin])
    (hpre : ∀ o ∈ pre, o.done = false) (hfin : fin.done = true) :
    runCycle sub s = ((finishCycle s fin (10000 * (pre.length + 1))).1,
      { time := 0, kind := EvKind.submit sub } ::
        ((List.range (pre.length + 1)).map
          (fun i => { time := 10000 * (i + 1), kind := EvKind.poll }) ++
          (finishCycle s fin (10000 * (pre.length + 1))).2)) := by
  have hp := pollLoop_main fin hfin pre s.submitResp 0 h0 hpre
  simp only [runCycle, hscript, hp]
  simp only [List.length_map, List.length_range, Nat.zero_add]

lemma finishCycle_noAssets (s : RemoteScript) (opr : Operation) (t : Nat)
    (resp : OpResponse) (hresp : opr.response = some resp)
    (hempty : resp.generatedVideos = none ∨ resp.generatedVideos = some []) :
    finishCycle s opr t = (Outcome.err GenError.NoAssetsProduced, []) := by
  rcases hempty with he | he <;> simp only [finishCycle, hresp, he]

lemma finishCycle_desc (s : RemoteScript) (opr : Operation) (t : Nat)
    (resp : OpResponse) (g : GeneratedVideo) (gs : List GeneratedVideo)
    (hresp : opr.response = some resp)
    (hg : resp.generatedVideos = some (g :: gs)) :
    finishCycle s opr t =
      (match g.video with
      | none => (Outcome.err GenError.MissingAssetLocator, [])
      | some v =>
        match v.uri with
        | none => (Outcome.err GenError.MissingAssetLocator, [])
        | some u =>
          if u = "" then (Outcome.err GenError.MissingAssetLocator, [])
          else if s.fetchResp.ok then
            (Outcome.ok
              { objectUrl := createObjectURLModel s.fetchResp.blob
                blob := s.fetchResp.blob
                uri := decodeURIComponentModel u
                video := v },
              [{ time := t, kind := EvKind.fetchAsset }])
          else
            (Outcome.err (GenError.AssetFetchFailed s.fetchResp.status s.fetchResp.statusText),
              [{ time := t, kind := EvKind.fetchAsset }])) := by
  simp only [finishCycle, hresp, hg]

lemma countFetches_all_poll (l : List Ev) (h : ∀ e ∈ l, e.kind = EvKind.poll) :
    countFetches l = 0 := by
  have : (l.filterMap fun e =>
      match e.kind with
      | EvKind.fetchAsset => some e.time
      | _ => none) = [] := by
    rw [List.filterMap_eq_nil_iff]
    intro e he
    rw [h e he]
  rw [countFetches, this]
  rfl

/-- Claim C5: when the poll loop ends on a terminal operation carrying a
response, an empty or absent generated-asset list fails the cycle with
the no-assets error and no fetch is attempted; with a non-empty list the
cycle fails with the missing-locator error exactly when the first
descriptor lacks a retrievable location. -/
theorem terminal_assets_errors (sub : JobSubmission) (s : RemoteScript) (op : Operation)
    (evs : List Ev) (resp : OpResponse)
    (hpoll : pollLoop s.submitResp s.pollResps 0 = (some op, evs))
    (hresp : op.response = some resp) :
    ((resp.generatedVideos = none ∨ resp.generatedVideos = some []) →
      (runCycle sub s).1 = Outcome.err GenError.NoAssetsProduced ∧
      countFetches (runCycle sub s).2 = 0) ∧
    (∀ g gs, resp.generatedVideos = some (g :: gs) →
      ((runCycle sub s).1 = Outcome.err GenError.MissingAssetLocator ↔
        descriptorHasLocator g = false)) := by
  have hrc : runCycle sub s = ((finishCycle s op (10000 * evs.length)).1,
      { time := 0, kind := EvKind.submit sub } ::
        (evs ++ (finishCycle s op (10000 * evs.length)).2)) := by
    simp only [runCycle, hpoll]
  have hevs : ∀ e ∈ evs, e.kind = EvKind.poll := by
    intro e he
    exact pollLoop_kinds s.pollResps s.submitResp 0 e (by rw [hpoll]; exact he)
  constructor
  · intro hempty
    have hfc := finishCycle_noAssets s op (10000 * evs.length) resp hresp hempty
    rw [hrc, hfc]
    constructor
    · rfl
    · simp only [countFetches, List.filterMap_cons, List.filterMap_append]
      have h1 : (evs.filterMap fun e =>
          match e.kind with
          | EvKind.fetchAsset => some e.time
          | _ => none) = [] := by
        rw [List.filterMap_eq_nil_iff]
        intro e he
        rw [hevs e he]
      rw [h1]
      rfl
  · intro g gs hg
    have hfc := finishCycle_desc s op (10000 * evs.length) resp g gs hresp hg
    rw [hrc, hfc]
    cases hv : g.video with
    | none => simp [descriptorHasLocator, hv]
    | some v =>
      cases hu : v.uri with
      | none => simp [descriptorHasLocator, hv, hu]
      | some u =>
        by_cases hue : u = ""
        · simp [descriptorHasLocator, hv, hu, hue]
        · by_cases hok : s.fetchResp.ok = true <;>
            simp [descriptorHasLocator, hv, hu, hue, hok]

/-- Claim C6: a run whose poll responses are `pre` not-done operations
followed by one done operation with one locatable asset makes exactly
`pre.length + 1` poll calls (4 when `pre.length = 3`) and exactly one
fetch call; successive polls are spaced exactly 10000 ms apart, and
`pre` is unbounded — the loop has no maximum attempt cap. -/
theorem fixed_interval_polling (sub : JobSubmission) (s : RemoteScript)
    (pre : List Operation) (fin : Operation) (g : GeneratedVideo)
    (h0 : s.submitResp.done = false)
    (hscript : s.pollResps = pre ++ [fin])
    (hpre : ∀ o ∈ pre, o.done = false)
    (hfin : fin.done = true)
    (hresp : fin.response = some { generatedVideos := some [g] })
    (hloc : descriptorHasLocator g = true) :
    pollTimes (runCycle sub s).2 =
      (List.range (pre.length + 1)).map (fun i => 10000 * (i + 1)) ∧
    (∀ k, k + 1 < pre.length + 1 →
      (pollTimes (runCycle sub s).2).get? (k + 1) =
        ((pollTimes (runCycle sub s).2).get? k).map (fun x => x + 10000)) ∧
    countPolls (runCycle sub s).2 = pre.length + 1 ∧
    countFetches (runCycle sub s).2 = 1 ∧
    (pre.length = 3 → countPolls (runCycle sub s).2 = 4) := by
  have hrc := runCycle_eq sub s pre fin h0 hscript hpre hfin
  have hfe : (finishCycle s fin (10000 * (pre.length + 1))).2 =
      [{ time := 10000 * (pre.length + 1), kind := EvKind.fetchAsset }] := by
    rw [finishCycle_desc s fin (10000 * (pre.length + 1)) _ g [] hresp rfl]
    simp only [descriptorHasLocator] at hloc
    cases hv : g.video with
    | none => simp only [hv] at hloc; exact absurd hloc (by simp)
    | some v =>
      simp only [hv] at hloc
      cases hu : v.uri with
      | none => simp only [hu] at hloc; exact absurd hloc (by simp)
      | some u =>
        simp only [hu] at hloc
        have hue : u ≠ "" := by simpa using hloc
        simp only [hv, hu]
        rw [if_neg hue]
        by_cases hok : s.fetchResp.ok = true <;> simp [hok]
  have hpt : pollTimes (runCycle sub s).2 =
      (List.range (pre.length + 1)).map (fun i => 10000 * (i + 1)) := by
    rw [hrc, hfe]
    simp only [pollTimes, List.filterMap_cons, List.filterMap_append, List.filterMap_map]
    have hfun : ((fun e =>
        match e.kind with
        | EvKind.poll => some e.time
        | _ => none) ∘ fun i => ({ time := 10000 * (i + 1), kind := EvKind.poll } : Ev)) =
        some ∘ (fun i => 10000 * (i + 1)) := by
      funext i
      rfl
    rw [hfun, List.filterMap_eq_map]
    simp
  refine ⟨hpt, ?_, ?_, ?_, ?_⟩
  · intro k hk
    have h1 : (List.range (pre.length + 1)).get? (k + 1) = some (k + 1) :=
      List.get?_range hk
    have h2 : (List.range (pre.length + 1)).get? k = some k :=
      List.get?_range (by omega)
    rw [hpt, List.get?_map, List.get?_map, h1, h2]
    simp only [Option.map_some']
    try congr 1
    try omega
  · simp only [countPolls]
    rw [hpt]
    simp
  · rw [hrc, hfe]
    simp only [countFetches, List.filterMap_cons, List.filterMap_append,
      List.filterMap_map, List.length_append]
    simp
  · intro h3
    simp only [countPolls]
    rw [hpt]
    simp [h3]

/-- Claim C5 witness: a terminal response whose asset list is empty. -/
theorem terminal_assets_errors_witness :
    pollLoop emptyAssetsScript.submitResp emptyAssetsScript.pollResps 0 =
      (some emptyAssetsOp, []) ∧
    emptyAssetsOp.response = some { generatedVideos := some [] } ∧
    ((({ generatedVideos := some [] } : OpResponse).generatedVideos = none ∨
        ({ generatedVideos := some [] } : OpResponse).generatedVideos = some []) →
      (runCycle catSub emptyAssetsScript).1 = Outcome.err GenError.NoAssetsProduced ∧
      countFetches (runCycle catSub emptyAssetsScript).2 = 0) ∧
    (∀ g gs, ({ generatedVideos := some [] } : OpResponse).generatedVideos = some (g :: gs) →
      ((runCycle catSub emptyAssetsScript).1 = Outcome.err GenError.MissingAssetLocator ↔
        descriptorHasLocator g = false)) := by
  refine ⟨rfl, rfl, ?_⟩
  exact terminal_assets_errors catSub emptyAssetsScript emptyAssetsOp [] _ rfl rfl

/-- Claim C6 witness: three not-done polls then a done poll with one
locatable asset. -/
theorem fixed_interval_polling_witness :
    okScriptB.submitResp.done = false ∧
    okScriptB.pollResps = w6pre ++ [doneOpWith vidB] ∧
    (∀ o ∈ w6pre, o.done = false) ∧
    (doneOpWith vidB).done = true ∧
    (doneOpWith vidB).response =
      some { generatedVideos := some [{ video := some vidB }] } ∧
    descriptorHasLocator { video := some vidB } = true ∧
    (pollTimes (runCycle catSub okScriptB).2 =
        (List.range (w6pre.length + 1)).map (fun i => 10000 * (i + 1)) ∧
      (∀ k, k + 1 < w6pre.length + 1 →
        (pollTimes (runCycle catSub okScriptB).2).get? (k + 1) =
          ((pollTimes (runCycle catSub okScriptB).2).get? k).map (fun x => x + 10000)) ∧
      countPolls (runCycle catSub okScriptB).2 = w6pre.length + 1 ∧
      countFetches (runCycle catSub okScriptB).2 = 1 ∧
      (w6pre.length = 3 → countPolls (runCycle catSub okScriptB).2 = 4)) :=
  ⟨rfl, rfl, by decide, rfl, rfl, by decide,
    fixed_interval_polling catSub okScriptB w6pre (doneOpWith vidB)
      { video := some vidB } rfl rfl (by decide) rfl rfl (by decide)⟩

/-! ## Unreachability of the chain-broken guard -/

lemma buildSubmission_error_cases (params : GenerateVideoParams) (op : Option String)
    (ov : Option Video) (e : GenError)
    (h : buildSubmission params op ov = Except.error e) :
    e = GenError.MissingExtensionSource ∧
    params.mode = GenerationMode.EXTEND_VIDEO ∧ ov = none ∧
    params.inputVideoObject = none := by
  cases ov with
  | some v => simp [buildSubmission] at h
  | none =>
    cases hmode : params.mode with
    | TEXT_TO_VIDEO => simp [buildSubmission, isExtensionOp, hmode] at h
    | FRAMES_TO_VIDEO =>
      cases hsf : params.startFrame <;> cases hl : params.isLooping <;>
        cases hef : params.endFrame <;>
        simp [buildSubmission, isExtensionOp, hmode, hsf, hl, hef] at h
    | REFERENCES_TO_VIDEO =>
      by_cases hp : referenceImagesPayload params = [] <;>
        simp [buildSubmission, isExtensionOp, hmode, List.length_pos, hp] at h
    | STORY_MODE =>
      by_cases hr : params.referenceImages = []
      · simp [buildSubmission, isExtensionOp, hmode, hr] at h
      · by_cases hp : referenceImagesPayload params = [] <;>
          simp [buildSubmission, isExtensionOp, hmode, List.length_pos, hp, hr] at h
    | EXTEND_VIDEO =>
      cases hin : params.inputVideoObject with
      | some v => simp [buildSubmission, isExtensionOp, hmode, hin] at h
      | none =>
        simp only [buildSubmission, isExtensionOp, hmode, hin] at h
        simp at h
        exact ⟨h.symm, rfl, rfl, rfl⟩

lemma buildSubmission_ok_of_mode (params : GenerateVideoParams) (op : Option String)
    (ov : Option Video) (h : params.mode ≠ GenerationMode.EXTEND_VIDEO) :
    ∃ s, buildSubmission params op ov = Except.ok s := by
  cases hb : buildSubmission params op ov with
  | ok s => exact ⟨s, rfl⟩
  | error e =>
    obtain ⟨-, hm, -, -⟩ := buildSubmission_error_cases params op ov e hb
    exact absurd hm h

lemma finishCycle_ne_chainBroken (s : RemoteScript) (opr : Operation) (t : Nat) :
    (finishCycle s opr t).1 ≠ Outcome.err GenError.ChainBroken := by
  unfold finishCycle
  repeat' split <;> try simp

lemma runCycle_ne_chainBroken (sub : JobSubmission) (s : RemoteScript) :
    (runCycle sub s).1 ≠ Outcome.err GenError.ChainBroken := by
  cases hpl : (pollLoop s.submitResp s.pollResps 0).1 with
  | none => simp [runCycle, hpl]
  | some finalOp =>
    simp only [runCycle, hpl]
    exact finishCycle_ne_chainBroken s finalOp _

lemma performGeneration_ne_chainBroken (params : GenerateVideoParams) (op : Option String)
    (ov : Option Video) (script : RemoteScript) :
    (performGeneration params op ov script).1 ≠ Outcome.err GenError.ChainBroken := by
  cases hb : buildSubmission params op ov with
  | error e =>
    obtain ⟨he, -, -, -⟩ := buildSubmission_error_cases params op ov e hb
    subst he
    simp [performGeneration, hb]
  | ok sub =>
    simp only [performGeneration, hb]
    exact runCycle_ne_chainBroken sub script

lemma storySteps_ne_chainBroken (params : GenerateVideoParams)
    (remotes : Nat → RemoteScript) :
    ∀ (rest : List String) (i : Nat) (cur : Option GenerationResult),
      (i = 0 ∨ cur.isSome = true) →
      (storySteps params remotes rest i cur).1 ≠ Outcome.err GenError.ChainBroken := by
  intro rest
  induction rest with
  | nil =>
    intro i cur hinv
    cases cur <;> simp [storySteps]
  | cons p rest ih =>
    intro i cur hinv
    by_cases hi : i = 0
    · subst hi
      simp only [storySteps, if_pos rfl]
      cases ho : (performGeneration
          { params with mode := GenerationMode.STORY_MODE, prompt := some p }
          none none (remotes 0)).1 with
      | ok r => exact ih 1 (some r) (Or.inr rfl)
      | err e =>
        intro hc
        simp only [] at hc
        rw [← ho] at hc
        exact performGeneration_ne_chainBroken _ _ _ _ hc
      | hang => simp
    · rcases cur with _ | prev
      · rcases hinv with h0 | hs
        · exact absurd h0 hi
        · simp at hs
      · simp only [storySteps, if_neg hi]
        cases ho : (performGeneration params (some p) (some prev.video) (remotes i)).1 with
        | ok r => exact ih (i + 1) (some r) (Or.inr rfl)
        | err e =>
          intro hc
          simp only [] at hc
          rw [← ho] at hc
          exact performGeneration_ne_chainBroken _ _ _ _ hc
        | hang => simp

/-- Claim C9: the previous-step-failed guard of the story loop is
unreachable — a story-sequence call with non-empty prompts can never
surface the chain-broken error, because a step failure aborts the whole
call before a later step reads the missing result. -/
theorem chain_guard_unreachable (params : GenerateVideoParams)
    (remotes : Nat → RemoteScript) (l : List String)
    (hmode : params.mode = GenerationMode.STORY_MODE)
    (hsp : params.storyPrompts = some l) (hne : l ≠ []) :
    (generateVideo params remotes).1 ≠ Outcome.err GenError.ChainBroken := by
  simp only [generateVideo, hsp]
  rw [if_pos (And.intro hmode (List.length_pos.mpr hne))]
  exact storySteps_ne_chainBroken params remotes l 0 none (Or.inl rfl)

/-- Claim C9 witness: the two-step story fixture. -/
theorem chain_guard_unreachable_witness :
    storyParams.mode = GenerationMode.STORY_MODE ∧
    storyParams.storyPrompts = some ["open", "continue"] ∧
    (["open", "continue"] : List String) ≠ [] ∧
    (generateVideo storyParams remotesAB).1 ≠ Outcome.err GenError.ChainBroken :=
  ⟨rfl, rfl, by decide,
    chain_guard_unreachable storyParams remotesAB ["open", "continue"] rfl rfl (by decide)⟩

/-! ## The story-sequence chain -/

lemma runCycle_outcome (sub : JobSubmission) (s : RemoteScript) :
    (runCycle sub s).1 = scriptOutcome s := by
  cases hpl : (pollLoop s.submitResp s.pollResps 0).1 <;>
    simp [runCycle, scriptOutcome, hpl]

lemma runCycle_ok (sub : JobSubmission) (s : RemoteScript) (hok : scriptOk s = true) :
    (runCycle sub s).1 = Outcome.ok (scriptRes s) := by
  rw [runCycle_outcome]
  cases ho : scriptOutcome s with
  | ok r => simp [scriptRes, ho]
  | err e => rw [scriptOk, ho] at hok; simp at hok
  | hang => rw [scriptOk, ho] at hok; simp at hok

lemma finishCycle_kinds (s : RemoteScript) (opr : Operation) (t : Nat) :
    ∀ e ∈ (finishCycle s opr t).2, e.kind = EvKind.fetchAsset := by
  unfold finishCycle
  repeat' split <;> try simp

lemma runCycle_submits (sub : JobSubmission) (s : RemoteScript) :
    submittedPayloads (runCycle sub s).2 = [sub] := by
  have hpk := pollLoop_kinds s.pollResps s.submitResp 0
  cases hpl : (pollLoop s.submitResp s.pollResps 0).1 with
  | none =>
    simp only [runCycle, hpl]
    simp only [submittedPayloads, List.filterMap_cons]
    have h1 : ((pollLoop s.submitResp s.pollResps 0).2.filterMap fun e =>
        match e.kind with
        | EvKind.submit p => some p
        | _ => none) = [] := by
      rw [List.filterMap_eq_nil_iff]
      intro e he
      rw [hpk e he]
    rw [h1]
  | some finalOp =>
    simp only [runCycle, hpl]
    simp only [submittedPayloads, List.filterMap_cons, List.filterMap_append]
    have h1 : ((pollLoop s.submitResp s.pollResps 0).2.filterMap fun e =>
        match e.kind with
        | EvKind.submit p => some p
        | _ => none) = [] := by
      rw [List.filterMap_eq_nil_iff]
      intro e he
      rw [hpk e he]
    have h2 : ((finishCycle s finalOp
        (10000 * (pollLoop s.submitResp s.pollResps 0).2.length)).2.filterMap fun e =>
        match e.kind with
        | EvKind.submit p => some p
        | _ => none) = [] := by
      rw [List.filterMap_eq_nil_iff]
      intro e he
      rw [finishCycle_kinds _ _ _ e he]
    rw [h1, h2]
    rfl

lemma buildSubmission_override (params : GenerateVideoParams) (op : Option String)
    (v : Video) :
    buildSubmission params op (some v) =
      Except.ok { basePayload params op (some v) with video := some v } := rfl

lemma performGeneration_override (params : GenerateVideoParams) (op : Option String)
    (v : Video) (s : RemoteScript) :
    performGeneration params op (some v) s =
      runCycle { basePayload params op (some v) with video := some v } s := by
  simp only [performGeneration, buildSubmission_override]

lemma submittedPayloads_append (l1 l2 : List Ev) :
    submittedPayloads (l1 ++ l2) = submittedPayloads l1 ++ submittedPayloads l2 := by
  simp [submittedPayloads, List.filterMap_append]

lemma storySteps_spec (params : GenerateVideoParams) (remotes : Nat → RemoteScript) :
    ∀ (rest : List String) (i : Nat) (r : GenerationResult),
      1 ≤ i →
      (∀ j, j < rest.length → scriptOk (remotes (i + j)) = true) →
      ((storySteps params remotes rest i (some r)).1 =
        Outcome.ok (if rest.length = 0 then r
          else scriptRes (remotes (i + rest.length - 1)))) ∧
      (submittedPayloads (storySteps params remotes rest i (some r)).2).length =
        rest.length ∧
      (∀ k, k < rest.length →
        ∃ sub,
          (submittedPayloads (storySteps params remotes rest i (some r)).2).get? k =
            some sub ∧
          Except.ok sub = buildSubmission params (rest.get? k)
            (some (if k = 0 then r.video
              else (scriptRes (remotes (i + k - 1))).video))) := by
  intro rest
  induction rest with
  | nil =>
    intro i r hi hok
    refine ⟨by simp [storySteps], by simp [storySteps, submittedPayloads], ?_⟩
    intro k hk
    exact absurd hk (by simp)
  | cons p rest ih =>
    intro i r hi hok
    have hine : ¬(i = 0) := by omega
    have hok0 : scriptOk (remotes i) = true := by
      have h := hok 0 (by simp)
      simpa using h
    have hok1 : ∀ j, j < rest.length → scriptOk (remotes (i + 1 + j)) = true := by
      intro j hj
      have h := hok (j + 1) (by simp only [List.length_cons]; omega)
      have he : i + (j + 1) = i + 1 + j := by omega
      rwa [he] at h
    obtain ⟨ih1, ih2, ih3⟩ := ih (i + 1) (scriptRes (remotes i)) (by omega) hok1
    simp only [storySteps, if_neg hine, performGeneration_override,
      runCycle_ok _ _ hok0]
    refine ⟨?_, ?_, ?_⟩
    · rw [ih1]
      simp only [List.length_cons]
      by_cases hr0 : rest.length = 0
      · rw [if_pos hr0, if_neg (by omega)]
        have he : i + (rest.length + 1) - 1 = i := by omega
        rw [he]
      · rw [if_neg hr0, if_neg (by omega)]
        have he : i + 1 + rest.length - 1 = i + (rest.length + 1) - 1 := by omega
        rw [he]
    · rw [submittedPayloads_append, runCycle_submits]
      simp only [List.singleton_append, List.length_cons, ih2]
    · intro k hk
      rw [submittedPayloads_append, runCycle_submits, List.singleton_append]
      cases k with
      | zero =>
        refine ⟨_, rfl, ?_⟩
        rw [if_pos rfl]
        exact (buildSubmission_override params (some p) r.video).symm
      | succ m =>
        have hm : m < rest.length := by
          simp only [List.length_cons] at hk
          omega
        obtain ⟨sub, hget, hbuild⟩ := ih3 m hm
        refine ⟨sub, ?_, ?_⟩
        · simpa using hget
        · rw [hbuild]
          have he : (if m = 0 then (scriptRes (remotes i)).video
              else (scriptRes (remotes (i + 1 + m - 1))).video) =
              (scriptRes (remotes (i + (m + 1) - 1))).video := by
            by_cases hm0 : m = 0
            · subst hm0
              rw [if_pos rfl]
              have h0 : i + (0 + 1) - 1 = i := by omega
              rw [h0]
            · rw [if_neg hm0]
              have h0 : i + 1 + m - 1 = i + (m + 1) - 1 := by omega
              rw [h0]
          rw [he]
          rfl

/-- Claim C1: a story-sequence call with n prompts and succeeding remote
scripts runs exactly n submissions, the k-th (k 0-based) built from
prompt k — chained for k ≥ 1 through the previous step's remote video
object as the prior-video override — and returns exactly the final
step's result. -/
theorem story_chain (params : GenerateVideoParams) (remotes : Nat → RemoteScript)
    (l : List String)
    (hmode : params.mode = GenerationMode.STORY_MODE)
    (hsp : params.storyPrompts = some l)
    (hne : l ≠ [])
    (hok : ∀ i, i < l.length → scriptOk (remotes i) = true) :
    (submittedPayloads (generateVideo params remotes).2).length = l.length ∧
    (∀ k, k < l.length →
      ∃ sub, (submittedPayloads (generateVideo params remotes).2).get? k = some sub ∧
        Except.ok sub = (if k = 0 then
            buildSubmission { params with
              mode := GenerationMode.STORY_MODE
              prompt := l.get? 0 } none none
          else
            buildSubmission params (l.get? k)
              (some (scriptRes (remotes (k - 1))).video))) ∧
    (∀ k, k < l.length → 0 < k →
      ∃ sub, (submittedPayloads (generateVideo params remotes).2).get? k = some sub ∧
        sub.video = some (scriptRes (remotes (k - 1))).video) ∧
    (generateVideo params remotes).1 = Outcome.ok (scriptRes (remotes (l.length - 1))) := by
  simp only [generateVideo, hsp]
  rw [if_pos (And.intro hmode (List.length_pos.mpr hne))]
  cases l with
  | nil => exact absurd rfl hne
  | cons p rest =>
    have hok0 : scriptOk (remotes 0) = true := by
      have h := hok 0 (by simp)
      simpa using h
    have hok1 : ∀ j, j < rest.length → scriptOk (remotes (1 + j)) = true := by
      intro j hj
      have h := hok (j + 1) (by simp only [List.length_cons]; omega)
      have he : j + 1 = 1 + j := by omega
      rwa [he] at h
    obtain ⟨sub0, hsub0⟩ := buildSubmission_ok_of_mode
      { params with mode := GenerationMode.STORY_MODE, prompt := some p } none none
      (by simp)
    obtain ⟨sp1, sp2, sp3⟩ := storySteps_spec params remotes rest 1
      (scriptRes (remotes 0)) le_rfl hok1
    simp only [storySteps, if_pos rfl, performGeneration, hsub0,
      runCycle_ok _ _ hok0, if_true, Nat.zero_add]
    refine ⟨?_, ?_, ?_, ?_⟩
    · rw [submittedPayloads_append, runCycle_submits]
      simp only [List.singleton_append, List.length_cons, sp2]
    · intro k hk
      rw [submittedPayloads_append, runCycle_submits, List.singleton_append]
      cases k with
      | zero =>
        refine ⟨sub0, rfl, ?_⟩
        rw [if_pos rfl]
        simpa using hsub0.symm
      | succ m =>
        have hm : m < rest.length := by
          simp only [List.length_cons] at hk
          omega
        obtain ⟨sub, hget, hbuild⟩ := sp3 m hm
        refine ⟨sub, by simpa using hget, ?_⟩
        rw [if_neg (by omega), hbuild]
        have he : (if m = 0 then (scriptRes (remotes 0)).video
            else (scriptRes (remotes (1 + m - 1))).video) =
            (scriptRes (remotes (m + 1 - 1))).video := by
          by_cases hm0 : m = 0
          · subst hm0
            rw [if_pos rfl]
          · rw [if_neg hm0]
            have h0 : 1 + m - 1 = m + 1 - 1 := by omega
            rw [h0]
        rw [he]
        try rfl
    · intro k hk hkpos
      rw [submittedPayloads_append, runCycle_submits, List.singleton_append]
      cases k with
      | zero => exact absurd hkpos (by omega)
      | succ m =>
        have hm : m < rest.length := by
          simp only [List.length_cons] at hk
          omega
        obtain ⟨sub, hget, hbuild⟩ := sp3 m hm
        rw [buildSubmission_override] at hbuild
        have hsubeq := Except.ok.inj hbuild
        refine ⟨sub, by simpa using hget, ?_⟩
        rw [hsubeq]
        have he : (if m = 0 then (scriptRes (remotes 0)).video
            else (scriptRes (remotes (1 + m - 1))).video) =
            (scriptRes (remotes (m + 1 - 1))).video := by
          by_cases hm0 : m = 0
          · subst hm0
            rw [if_pos rfl]
          · rw [if_neg hm0]
            have h0 : 1 + m - 1 = m + 1 - 1 := by omega
            rw [h0]
        rw [← he]
    · rw [sp1]
      simp only [List.length_cons]
      by_cases hr0 : rest.length = 0
      · rw [if_pos hr0]
        have he : rest.length + 1 - 1 = 0 := by omega
        rw [he]
      · rw [if_neg hr0]
        have he : 1 + rest.length - 1 = rest.length + 1 - 1 := by omega
        rw [he]

/-- Claim C1 witness: the two-prompt story fixture against two
succeeding remote scripts. -/
theorem story_chain_witness :
    storyParams.mode = GenerationMode.STORY_MODE ∧
    storyParams.storyPrompts = some ["open", "continue"] ∧
    (["open", "continue"] : List String) ≠ [] ∧
    (∀ i, i < (["open", "continue"] : List String).length →
      scriptOk (remotesAB i) = true) ∧
    ((submittedPayloads (generateVideo storyParams remotesAB).2).length =
        (["open", "continue"] : List String).length ∧
      (∀ k, k < (["open", "continue"] : List String).length →
        ∃ sub, (submittedPayloads (generateVideo storyParams remotesAB).2).get? k =
            some sub ∧
          Except.ok sub = (if k = 0 then
              buildSubmission { storyParams with
                mode := GenerationMode.STORY_MODE
                prompt := (["open", "continue"] : List String).get? 0 } none none
            else
              buildSubmission storyParams ((["open", "continue"] : List String).get? k)
                (some (scriptRes (remotesAB (k - 1))).video))) ∧
      (∀ k, k < (["open", "continue"] : List String).length → 0 < k →
        ∃ sub, (submittedPayloads (generateVideo storyParams remotesAB).2).get? k =
            some sub ∧
          sub.video = some (scriptRes (remotesAB (k - 1))).video) ∧
      (generateVideo storyParams remotesAB).1 =
        Outcome.ok (scriptRes (remotesAB ((["open", "continue"] : List String).length - 1)))) :=
  ⟨rfl, rfl, by decide, by decide,
    story_chain storyParams remotesAB ["open", "continue"] rfl rfl (by decide) (by decide)⟩

end StoryMode
